import Mathlib

/-!
Shallow embedding of the ExtraHand user-verification service
(`routes/verification.js`, `models/Verification.js`, `utils/validation.js`,
`utils/helpers.js`, `utils/errorHandler.js`, `services/providers/CashfreeProvider.js`)
together with proofs about the OTP verification lifecycle.

Modelling conventions:
- JS `Date` values are milliseconds since the epoch, modelled as `Nat`.
- Possibly-absent keys of a JS object are modelled as `Option` fields;
  `none` means the key is absent from the JSON object.
- JS string truthiness: the empty string is falsy, so a "missing" string
  input is modelled as `""` (the route handlers test `!x` on strings).
- The record store is the latest verification record of the user under
  consideration (`Verification.findByUserId` returns the most recently
  created record for a user; the aadhaar flow keeps a single record per
  user, updating it in place).
- Each handler result carries a `contactedUpstream` flag that is `true`
  exactly on the paths where the source awaits a `cashfreeService` call.
-/

namespace ExtraHand

/-- JS `x || y` on strings: the empty string is falsy. -/
def jsOrStr (a b : String) : String := if a = "" then b else a

/-- JS `x || y` where `x` may be `undefined` (modelled `none`) or an empty string. -/
def jsOr (a : Option String) (b : String) : String :=
  match a with
  | some s => jsOrStr s b
  | none => b

/-- JS `s.includes(pat)` for a non-empty pattern, via `splitOn`:
the pattern occurs in `s` iff splitting on it yields more than one piece. -/
def strIncludes (s pat : String) : Bool := (s.splitOn pat).length != 1

/-- The character class `[\s-]` of `utils/validation.js` (whitespace or hyphen). -/
def isSpaceOrDash (c : Char) : Bool := c.isWhitespace || c == '-'

/-- Function `cleanAadhaarNumber` (utils/validation.js): replace the regex
class `[\s-]` globally by the empty string; a falsy input yields the empty
string, which the filter also produces from `""`. -/
def cleanAadhaarNumber (s : String) : String :=
  ⟨s.toList.filter (fun c => !isSpaceOrDash c)⟩

/-- The regex `/^\d{12}$/`. -/
def isTwelveDigits (s : String) : Bool :=
  s.length == 12 && s.toList.all Char.isDigit

/-- Function `isValidAadhaarFormat` (utils/validation.js): strip `[\s-]`, then `/^\d{12}$/`.
The falsy/non-string guard is subsumed: `""` cleans to `""`, which fails the test. -/
def isValidAadhaarFormat (s : String) : Bool :=
  isTwelveDigits ⟨s.toList.filter (fun c => !isSpaceOrDash c)⟩

/-- Function `isValidOtpFormat` (utils/validation.js): `/^\d{6}$/`. -/
def isValidOtpFormat (s : String) : Bool :=
  s.length == 6 && s.toList.all Char.isDigit

/-- Function `maskAadhaar` (utils/validation.js). -/
def maskAadhaar (s : String) : String :=
  if s.length ≠ 12 then "XXXX XXXX XXXX"
  else "XXXX XXXX " ++ s.takeRight 4

/-- The `status` enum of `models/Verification.js`. -/
inductive Status
  | pending
  | otp_sent
  | otp_verified
  | verified
  | failed
  | expired
deriving DecidableEq, Repr

def statusToString : Status → String
  | .pending => "pending"
  | .otp_sent => "otp_sent"
  | .otp_verified => "otp_verified"
  | .verified => "verified"
  | .failed => "failed"
  | .expired => "expired"

/-- One entry of the `auditLog` array (`models/Verification.js`). -/
structure AuditEntry where
  action : String
  performedBy : String
  performedAt : Nat
  ipAddress : String
  metaProvider : String
  metaEnvironment : String
deriving DecidableEq, Repr

/-- The `consent` subdocument. -/
structure Consent where
  given : Bool
  givenAt : Nat
  ipAddress : String
  userAgent : String
  consentVersion : String
  consentText : String
deriving DecidableEq, Repr

/-- The `verifiedData` subdocument (the fields the aadhaar flow reads). -/
structure VerifiedData where
  name : String
  gender : String
  yearOfBirth : String
deriving DecidableEq, Repr

/-- A `Verification` document. The schema field `type` is a Lean keyword,
so it is embedded as `vtype`. -/
structure Record where
  userId : String
  vtype : String
  status : Status
  provider : String
  transactionId : Option String
  refId : Option String
  maskedAadhaar : Option String
  otpSent : Bool
  otpSentAt : Option Nat
  otpExpiresAt : Option Nat
  otpVerified : Bool
  otpVerifiedAt : Option Nat
  otpAttempts : Nat
  verifiedData : Option VerifiedData
  consent : Option Consent
  auditLog : List AuditEntry
  initiatedAt : Option Nat
  verifiedAt : Option Nat
  failedAt : Option Nat
  failureReason : Option String
  createdAt : Nat
deriving DecidableEq, Repr

/-- Instance method `isVerified` of the schema. -/
def Record.isVerifiedRec (r : Record) : Bool := r.status == .verified

/-- Instance method `hasExceededAttempts`: `this.otpAttempts >= 3`. -/
def Record.hasExceededAttempts (r : Record) : Bool := decide (3 ≤ r.otpAttempts)

/-- Instance method `isOtpExpired`: `if (!otpExpiresAt) return false; return new Date() > otpExpiresAt`. -/
def Record.isOtpExpired (r : Record) (now : Nat) : Bool :=
  match r.otpExpiresAt with
  | none => false
  | some e => decide (e < now)

/-- Static `findByUserId` (latest record of the user; our store holds that record). -/
def findByUserId (store : Option Record) (userId : String) : Option Record :=
  store.bind (fun r => if r.userId = userId then some r else none)

/-- The `findOne({userId, $or: [{refId}, {transactionId}]})` query of the
verify and resend handlers. -/
def findByUserRef (store : Option Record) (userId ref : String) : Option Record :=
  store.bind (fun r =>
    if r.userId = userId ∧ (r.refId = some ref ∨ r.transactionId = some ref)
    then some r else none)

/-- The JSON payload under the `data` key of a handler response. -/
inductive RData
  | initiatePayload (transactionId refId maskedAadhaar : String)
      (testOtp : Option String) (dataMessage : Option String)
  | verifyPayload (status : String) (maskedAadhaar : Option String)
      (name gender yearOfBirth : String)
  | statusPayload (status : String) (isVerified : Bool) (vtype : Option String)
      (maskedAadhaar : Option String) (provider : Option String)
      (verifiedAt : Option Nat) (attemptsRemaining : Option Nat)
  | resendPayload (refId : String) (maskedAadhaar : Option String)
      (dataMessage : String) (testOtp : Option String)
deriving DecidableEq, Repr

/-- The JSON body built by `createResponse` (utils/helpers.js).
`code` and `retryAfter` are keys that other parts of the service can emit;
`createResponse` itself never sets them, so they are `none` here. -/
structure Response where
  success : Bool
  timestamp : Nat
  data : Option RData
  message : Option String
  error : Option String
  code : Option String
  retryAfter : Option String
deriving DecidableEq, Repr

/-- Function `createResponse(success, data, message, error)` (utils/helpers.js).
`timestamp` is `new Date().toISOString()`, modelled by the call time.
Note: the function has no parameter for an error code, so no `code` key is
ever attached to the body. -/
def createResponse (success : Bool) (data : Option RData) (message : Option String)
    (error : Option String) (now : Nat) : Response :=
  { success := success, timestamp := now, data := data, message := message,
    error := error, code := none, retryAfter := none }

/-- Function `successResponse(data, message)` (utils/helpers.js). -/
def successResponse (data : Option RData) (message : Option String) (now : Nat) : Response :=
  createResponse true data message none now

/-- Function `errorResponse(error, message)` (utils/helpers.js). The signature takes
exactly two arguments; several route call sites pass a third error-code
argument (e.g. `OTP_EXPIRED`, `RESEND_COOLDOWN`, `FEATURE_DISABLED`),
which JavaScript silently drops here. -/
def errorResponse (error : String) (message : Option String) (now : Nat) : Response :=
  createResponse false none message (some error) now

/-- Request context: call time, client IP, user agent. -/
structure ReqCtx where
  now : Nat
  ip : String
  userAgent : String
deriving DecidableEq, Repr

/-- Service configuration read from the environment by the routes. -/
structure ServiceCfg where
  featureAadhaar : Bool := true
  providerName : String := "cashfree"
  environment : String := "sandbox"
  sandbox : Bool := true
  testOtp : String := "111000"
deriving DecidableEq, Repr

/-- The optional `consent` object of the initiate request body. -/
structure ConsentInput where
  version : Option String
  text : Option String
deriving DecidableEq, Repr

/-- Result of `cashfreeService.generateAadhaarOTP` / `resendAadhaarOTP`. -/
structure OtpGenResult where
  success : Bool
  refId : String
  message : Option String
deriving DecidableEq, Repr

/-- Result of `cashfreeService.verifyAadhaarOTP`. -/
structure OtpVerifyResult where
  success : Bool
  message : String
  verifiedData : VerifiedData
  maskedAadhaar : Option String
deriving DecidableEq, Repr

/-- Outcome of one route handler: the persisted store after the call, the
HTTP status, the JSON body, and whether the upstream adapter was awaited. -/
structure HandlerOut where
  store : Option Record
  httpStatus : Nat
  response : Response
  contactedUpstream : Bool
deriving DecidableEq, Repr

/-- The consent subdocument built by the initiate handler
(`consentData = consent || {given, text, version}` then the enhanced object). -/
def consentFromInput (consentQ : Option ConsentInput) (ctx : ReqCtx) : Consent :=
  let cd := consentQ.getD { version := some "v1.0", text := some "User agreed to Aadhaar verification" }
  { given := true, givenAt := ctx.now, ipAddress := ctx.ip, userAgent := ctx.userAgent,
    consentVersion := jsOr cd.version "v1.0",
    consentText := jsOr cd.text "User agreed to Aadhaar verification" }

/-- The `verificationData` object of the initiate handler
(routes/verification.js lines 134-171), with the mongoose defaults that
apply when the record is created fresh. -/
def initiatedRecordData (cfg : ServiceCfg) (userId cleanedAadhaar : String)
    (consentQ : Option ConsentInput) (ctx : ReqCtx) (genRefId : String) : Record :=
  { userId := userId
    vtype := "aadhaar"
    status := Status.otp_sent
    provider := cfg.providerName
    transactionId := some genRefId
    refId := some genRefId
    maskedAadhaar := some (maskAadhaar cleanedAadhaar)
    otpSent := true
    otpSentAt := some ctx.now
    otpExpiresAt := some (ctx.now + 10 * 60 * 1000)
    otpVerified := false
    otpVerifiedAt := none
    otpAttempts := 0
    verifiedData := none
    consent := some (consentFromInput consentQ ctx)
    auditLog := [{ action := "initiated", performedBy := userId, performedAt := ctx.now,
                   ipAddress := ctx.ip, metaProvider := cfg.providerName,
                   metaEnvironment := cfg.environment }]
    initiatedAt := some ctx.now
    verifiedAt := none
    failedAt := none
    failureReason := none
    createdAt := ctx.now }

/-- JS `Object.assign(verification, verificationData)`: only the keys present in
`verificationData` are overwritten; `otpAttempts`, `otpVerified`,
`otpVerifiedAt`, `verifiedData`, `verifiedAt`, `failedAt`, `failureReason`
and `createdAt` keep the values of the existing record. -/
def assignInitiateData (v d : Record) : Record :=
  { v with
      userId := d.userId, vtype := d.vtype, status := d.status,
      provider := d.provider, transactionId := d.transactionId, refId := d.refId,
      maskedAadhaar := d.maskedAadhaar, otpSent := d.otpSent,
      otpSentAt := d.otpSentAt, otpExpiresAt := d.otpExpiresAt,
      consent := d.consent, auditLog := d.auditLog, initiatedAt := d.initiatedAt }

/-- Route `POST /aadhaar/initiate` (routes/verification.js lines 51-213). -/
def initiateHandler (cfg : ServiceCfg) (store : Option Record)
    (userId aadhaarNumber : String) (consentGiven : Bool)
    (consentQ : Option ConsentInput) (ctx : ReqCtx)
    (upstream : OtpGenResult) : HandlerOut :=
  if cfg.featureAadhaar = false then
    ⟨store, 503, errorResponse "Aadhaar verification is temporarily disabled"
      (some "This feature is currently unavailable") ctx.now, false⟩
  else if userId = "" then
    ⟨store, 400, errorResponse "Missing required field: userId"
      (some "User ID is required") ctx.now, false⟩
  else if aadhaarNumber = "" then
    ⟨store, 400, errorResponse "Missing required field: aadhaarNumber"
      (some "Aadhaar number is required") ctx.now, false⟩
  else if consentGiven = false then
    ⟨store, 400, errorResponse "User consent required"
      (some "User consent is required for Aadhaar verification") ctx.now, false⟩
  else
    let cleanedAadhaar := cleanAadhaarNumber aadhaarNumber
    if isValidAadhaarFormat cleanedAadhaar = false then
      ⟨store, 400, errorResponse "Invalid Aadhaar number format"
        (some "Aadhaar number must be exactly 12 digits") ctx.now, false⟩
    else
      let verification := findByUserId store userId
      if verification.map Record.status = some Status.verified then
        ⟨store, 400, errorResponse "User is already verified"
          (some "This user has already completed Aadhaar verification") ctx.now, false⟩
      else if upstream.success = false then
        ⟨store, 400, errorResponse (jsOr upstream.message "Failed to generate OTP")
          (some "Could not initiate Aadhaar verification") ctx.now, true⟩
      else
        let d := initiatedRecordData cfg userId cleanedAadhaar consentQ ctx upstream.refId
        let saved :=
          match verification with
          | some v => assignInitiateData v d
          | none => d
        let resp := successResponse
          (some (RData.initiatePayload upstream.refId upstream.refId (maskAadhaar cleanedAadhaar)
            (if cfg.sandbox then some cfg.testOtp else none)
            (if cfg.sandbox
             then some "OTP sent successfully (Sandbox mode - use test OTP for testing)"
             else none)))
          (some "OTP sent successfully") ctx.now
        ⟨some saved, 200, resp, true⟩

/-- The expression `refId || transactionId` of the verify request body. -/
def pickRefId (refId transactionId : String) : String :=
  if refId = "" then transactionId else refId

/-- The record saved on the upstream-success branch of the verify handler
(routes/verification.js lines 313-323). -/
def verifySuccessUpdate (v : Record) (upstream : OtpVerifyResult) (now : Nat) : Record :=
  { v with
      status := Status.verified, otpVerified := true,
      otpVerifiedAt := some now, verifiedAt := some now,
      verifiedData := some upstream.verifiedData,
      maskedAadhaar :=
        match upstream.maskedAadhaar with
        | some m => if m = "" then v.maskedAadhaar else some m
        | none => v.maskedAadhaar,
      otpAttempts := 0 }

/-- The record saved on the upstream-failure branch of the verify handler
(routes/verification.js lines 324-333). -/
def verifyFailureUpdate (v : Record) (upstream : OtpVerifyResult) (now : Nat) : Record :=
  let attempts := v.otpAttempts + 1
  let statusFromMessage : Status :=
    if strIncludes upstream.message "OTP" then Status.otp_sent else Status.failed
  if 3 ≤ attempts then
    { v with
        otpAttempts := attempts, status := Status.failed,
        failureReason := some upstream.message, failedAt := some now }
  else
    { v with
        otpAttempts := attempts, status := statusFromMessage,
        failureReason := some upstream.message }

/-- Route `POST /aadhaar/verify` (routes/verification.js lines 220-378). -/
def verifyHandler (store : Option Record)
    (userId refId transactionId otp : String) (ctx : ReqCtx)
    (upstream : OtpVerifyResult) : HandlerOut :=
  if userId = "" then
    ⟨store, 400, errorResponse "Missing required field: userId"
      (some "User ID is required") ctx.now, false⟩
  else
    let verificationRefId := pickRefId refId transactionId
    if verificationRefId = "" then
      ⟨store, 400, errorResponse "Missing required field: refId or transactionId"
        (some "Reference ID is required") ctx.now, false⟩
    else if otp = "" then
      ⟨store, 400, errorResponse "Missing required field: otp"
        (some "OTP is required") ctx.now, false⟩
    else if isValidOtpFormat otp = false then
      ⟨store, 400, errorResponse "Invalid OTP format"
        (some "OTP must be 6 digits") ctx.now, false⟩
    else
      match findByUserRef store userId verificationRefId with
      | none =>
        ⟨store, 404, errorResponse "Verification session not found"
          (some "No active verification session found for this user") ctx.now, false⟩
      | some verification =>
        if verification.status ≠ Status.otp_sent then
          ⟨store, 400, errorResponse "OTP not sent for this verification"
            (some ("Verification status is: " ++ statusToString verification.status))
            ctx.now, false⟩
        else if verification.isOtpExpired ctx.now then
          ⟨store, 400, errorResponse "OTP has expired"
            (some "The OTP has expired. Please request a new one.") ctx.now, false⟩
        else if verification.hasExceededAttempts then
          let saved := { verification with
            status := Status.failed,
            failedAt := some ctx.now,
            failureReason := some "Maximum OTP attempts exceeded" }
          ⟨some saved, 400, errorResponse "Maximum OTP attempts exceeded"
            (some "You have exceeded the maximum number of OTP verification attempts")
            ctx.now, false⟩
        else if upstream.success then
          let saved := verifySuccessUpdate verification upstream ctx.now
          ⟨some saved, 200, successResponse
            (some (RData.verifyPayload "verified" upstream.maskedAadhaar
              upstream.verifiedData.name upstream.verifiedData.gender
              upstream.verifiedData.yearOfBirth))
            (some "Aadhaar verification successful") ctx.now, true⟩
        else
          let saved := verifyFailureUpdate verification upstream ctx.now
          ⟨some saved, 400, errorResponse (jsOrStr upstream.message "OTP verification failed")
            (some ("Verification failed. " ++ toString (3 - saved.otpAttempts)
              ++ " attempts remaining.")) ctx.now, true⟩

/-- JS `Math.ceil((60000 - timeSinceLastOTP) / 1000)` of the resend handler,
for the in-cooldown case where the numerator is positive. -/
def cooldownRemainingSeconds (now sentAt : Nat) : Nat :=
  ((((60000 : Int) - ((now : Int) - (sentAt : Int))).toNat + 999)) / 1000

/-- Route `POST /aadhaar/resend` (routes/verification.js lines 385-497). -/
def resendHandler (cfg : ServiceCfg) (store : Option Record)
    (userId refId : String) (ctx : ReqCtx)
    (upstream : OtpGenResult) : HandlerOut :=
  if userId = "" then
    ⟨store, 400, errorResponse "Missing required field: userId"
      (some "User ID is required") ctx.now, false⟩
  else
    let verification :=
      if refId ≠ "" then findByUserRef store userId refId
      else findByUserId store userId
    match verification with
    | none =>
      ⟨store, 404, errorResponse "No verification found"
        (some "Please initiate verification first") ctx.now, false⟩
    | some v =>
      if v.status = Status.verified then
        ⟨store, 400, errorResponse "Already verified"
          (some "This user is already verified") ctx.now, false⟩
      else
        let inCooldown :=
          match v.otpSentAt with
          | some sentAt => decide ((ctx.now : Int) - (sentAt : Int) < 60000)
          | none => false
        if inCooldown then
          let sentAt := v.otpSentAt.getD 0
          let remainingSeconds := cooldownRemainingSeconds ctx.now sentAt
          ⟨store, 429, errorResponse "Please wait before requesting another OTP"
            (some ("You can request a new OTP after " ++ toString remainingSeconds
              ++ " seconds")) ctx.now, false⟩
        else if upstream.success = false then
          ⟨store, 400, errorResponse (jsOr upstream.message "Failed to resend OTP")
            (some "Could not resend OTP") ctx.now, true⟩
        else
          let saved := { v with
            otpSentAt := some ctx.now,
            otpExpiresAt := some (ctx.now + 10 * 60 * 1000),
            otpAttempts := 0, status := Status.otp_sent,
            refId := some upstream.refId }
          let resp := successResponse
            (some (RData.resendPayload upstream.refId v.maskedAadhaar
              (if cfg.sandbox
               then "OTP resent successfully (Sandbox mode - use test OTP for testing)"
               else jsOr upstream.message "OTP resent successfully")
              (if cfg.sandbox then some cfg.testOtp else none)))
            (some "OTP resent successfully") ctx.now
          ⟨some saved, 200, resp, true⟩

/-- Route `GET /status/:userId` (routes/verification.js lines 503-536): a pure read,
no `save()` call on any path. -/
def getStatusHandler (store : Option Record) (userId : String) (ctx : ReqCtx) : HandlerOut :=
  match findByUserId store userId with
  | none =>
    ⟨store, 200, successResponse
      (some (RData.statusPayload "not_initiated" false none none none none none))
      (some "Verification not initiated") ctx.now, false⟩
  | some v =>
    ⟨store, 200, successResponse
      (some (RData.statusPayload (statusToString v.status) v.isVerifiedRec
        (some v.vtype) v.maskedAadhaar (some v.provider) v.verifiedAt
        (some (3 - v.otpAttempts))))
      none ctx.now, false⟩

/-- Class `APIError` (utils/errorHandler.js). -/
structure APIError where
  message : String
  code : String
  statusCode : Nat
  isRetryable : Bool
deriving DecidableEq, Repr

/-- The raw failure thrown by an upstream call, as `categorizeError` inspects
it: the optional Axios `error.response.status`, the first truthy of
`data.message || data.error`, the optional Node `error.code`, and
`error.message`. -/
structure JsError where
  responseStatus : Option Nat
  responseMessage : Option String
  errCode : Option String
  message : String
deriving DecidableEq, Repr

/-- Function `categorizeError` (utils/errorHandler.js lines 54-157). When
`error.response` exists but its status matches no branch (e.g. a 3xx),
control falls through to the network-error checks, as in the source. -/
def categorizeError (e : JsError) : APIError :=
  let fromStatus : Option APIError :=
    match e.responseStatus with
    | some status =>
      let message := jsOr e.responseMessage e.message
      if 500 ≤ status then
        some ⟨jsOrStr message "Service temporarily unavailable",
          "SERVICE_UNAVAILABLE", status, true⟩
      else if status = 429 then
        some ⟨"Rate limit exceeded. Please try again later.",
          "RATE_LIMIT_EXCEEDED", status, true⟩
      else if status = 401 ∨ status = 403 then
        some ⟨jsOrStr message "Authentication failed",
          "AUTHENTICATION_ERROR", status, false⟩
      else if status = 404 then
        some ⟨jsOrStr message "Resource not found", "NOT_FOUND", status, false⟩
      else if status = 400 then
        some ⟨jsOrStr message "Invalid request", "INVALID_INPUT", status, false⟩
      else if 400 ≤ status ∧ status < 500 then
        some ⟨message, "INVALID_INPUT", status, false⟩
      else none
    | none => none
  match fromStatus with
  | some r => r
  | none =>
    if e.errCode = some "ECONNABORTED" ∨ e.errCode = some "ETIMEDOUT" then
      ⟨"Request timeout. Please try again.", "TIMEOUT_ERROR", 408, true⟩
    else if e.errCode = some "ENOTFOUND" ∨ e.errCode = some "ECONNREFUSED" then
      ⟨"Network error. Please check your connection.", "NETWORK_ERROR", 503, true⟩
    else
      ⟨jsOrStr e.message "An unexpected error occurred", "UNKNOWN_ERROR", 500, false⟩

/-- The `for (let attempt = 0; attempt < maxRetries; attempt++)` loop of
`retryWithBackoff` (utils/errorHandler.js lines 174-235) with the default
`shouldRetry = (error) => error.isRetryable`. `fn i` is the outcome of the
i-th invocation of the wrapped call. The second component of the pair counts how
many times the wrapped call was invoked. The fuel argument mirrors the loop
bound (`fuel = maxRetries - attempt`); the zero-fuel case is the
unreachable `throw lastError` after the loop, represented by a sentinel. -/
def retryAux {α : Type} (fn : Nat → Except JsError α) (maxRetries : Nat) :
    Nat → Nat → Except APIError α × Nat
  | 0, _ => (Except.error ⟨"", "UNDEFINED_LAST_ERROR", 0, false⟩, 0)
  | fuel + 1, attempt =>
    match fn attempt with
    | Except.ok a => (Except.ok a, 1)
    | Except.error e =>
      let categorizedError := categorizeError e
      let isLastAttempt := attempt = maxRetries - 1
      if isLastAttempt ∨ categorizedError.isRetryable = false then
        (Except.error categorizedError, 1)
      else
        let rest := retryAux fn maxRetries fuel (attempt + 1)
        (rest.1, rest.2 + 1)

/-- Function `retryWithBackoff` with options: result plus the number of
invocations of the wrapped call. -/
def retryWithBackoff {α : Type} (fn : Nat → Except JsError α) (maxRetries : Nat) :
    Except APIError α × Nat :=
  retryAux fn maxRetries maxRetries 0

/-- The `maxRetries` passed by `CashfreeProvider.generateAadhaarOTP` (line 183). -/
def generateAadhaarOtpMaxRetries : Nat := 3

/-- The `maxRetries` passed by `CashfreeProvider.verifyAadhaarOTP` (line 313). -/
def verifyAadhaarOtpMaxRetries : Nat := 2

/-- The `maxRetries` passed by `CashfreeProvider.resendAadhaarOTP` (line 391). -/
def resendAadhaarOtpMaxRetries : Nat := 3

/-- Modelled from the spec: its description of the attempts update
inside `VerifyOtp` — "increments `otpAttempts` immediately (even on success,
the upstream result is checked afterward — success resets attempts to 0)".
Used to compare with the update the route handler actually performs. -/
def specAttemptsUpdate (preAttempts : Nat) (upstreamSuccess : Bool) : Nat :=
  let incremented := preAttempts + 1
  if upstreamSuccess then 0 else incremented

/-- The stores reachable from the empty store through the aadhaar route
handlers, over all inputs, times and upstream behaviours. -/
inductive Reachable : Option Record → Prop
  | empty : Reachable none
  | initiate (cfg : ServiceCfg) (s : Option Record) (userId aadhaarNumber : String)
      (consentGiven : Bool) (consentQ : Option ConsentInput) (ctx : ReqCtx)
      (up : OtpGenResult) : Reachable s →
      Reachable (initiateHandler cfg s userId aadhaarNumber consentGiven consentQ ctx up).store
  | verify (s : Option Record) (userId refId transactionId otp : String)
      (ctx : ReqCtx) (up : OtpVerifyResult) : Reachable s →
      Reachable (verifyHandler s userId refId transactionId otp ctx up).store
  | resend (cfg : ServiceCfg) (s : Option Record) (userId refId : String)
      (ctx : ReqCtx) (up : OtpGenResult) : Reachable s →
      Reachable (resendHandler cfg s userId refId ctx up).store
  | getStatus (s : Option Record) (userId : String) (ctx : ReqCtx) : Reachable s →
      Reachable (getStatusHandler s userId ctx).store

/-- A concrete record in `otp_sent`, as the initiate handler would persist it,
used to evaluate the theorems on specific inputs. -/
def sampleOtpSentRecord : Record :=
  { userId := "u1", vtype := "aadhaar", status := Status.otp_sent, provider := "cashfree",
    transactionId := some "21637861", refId := some "21637861",
    maskedAadhaar := some "XXXX XXXX 3712", otpSent := true,
    otpSentAt := some 1000, otpExpiresAt := some 601000,
    otpVerified := false, otpVerifiedAt := none, otpAttempts := 0,
    verifiedData := none, consent := none,
    auditLog := [{ action := "initiated", performedBy := "u1", performedAt := 1000,
                   ipAddress := "127.0.0.1", metaProvider := "cashfree",
                   metaEnvironment := "sandbox" }],
    initiatedAt := some 1000, verifiedAt := none, failedAt := none, failureReason := none,
    createdAt := 1000 }

/-- A request context at time `t`. -/
def sampleCtx (t : Nat) : ReqCtx := { now := t, ip := "127.0.0.1", userAgent := "jest" }

/-- A successful upstream OTP verification result. -/
def sampleVerifySuccess : OtpVerifyResult :=
  { success := true, message := "OTP verified successfully",
    verifiedData := { name := "John Doe", gender := "M", yearOfBirth := "1990" },
    maskedAadhaar := some "XXXX XXXX 3712" }

/-- A failed upstream OTP verification result (invalid OTP). -/
def sampleVerifyFailure : OtpVerifyResult :=
  { success := false, message := "Invalid OTP entered",
    verifiedData := { name := "", gender := "", yearOfBirth := "" },
    maskedAadhaar := none }

/-- A successful upstream OTP generation result. -/
def sampleGenSuccess : OtpGenResult :=
  { success := true, refId := "21637861", message := some "OTP sent successfully" }

theorem findByUserId_some {s : Option Record} {u : String} {v : Record}
    (h : findByUserId s u = some v) : s = some v := by
  cases s with
  | none => simp [findByUserId] at h
  | some r =>
    by_cases hu : r.userId = u <;> simp [findByUserId, Option.bind, hu] at h <;> simp [h]

theorem findByUserRef_some {s : Option Record} {u ref : String} {v : Record}
    (h : findByUserRef s u ref = some v) : s = some v := by
  cases s with
  | none => simp [findByUserRef] at h
  | some r =>
    by_cases hu : r.userId = u ∧ (r.refId = some ref ∨ r.transactionId = some ref) <;>
      simp [findByUserRef, Option.bind, hu] at h <;> simp [h]

theorem assignInitiateData_otpAttempts (v d : Record) :
    (assignInitiateData v d).otpAttempts = v.otpAttempts := rfl

theorem initiate_attempts_le (cfg : ServiceCfg) (s : Option Record)
    (userId aadhaarNumber : String) (consentGiven : Bool)
    (consentQ : Option ConsentInput) (ctx : ReqCtx) (up : OtpGenResult)
    (hs : ∀ r, s = some r → r.otpAttempts ≤ 3) :
    ∀ r', (initiateHandler cfg s userId aadhaarNumber consentGiven consentQ ctx up).store
      = some r' → r'.otpAttempts ≤ 3 := by
  intro r' h
  simp only [initiateHandler] at h
  split_ifs at h <;> (try exact hs r' h) <;>
  · simp only [HandlerOut.store, Option.some_inj] at h
    cases hv : findByUserId s userId with
    | some v =>
      rw [hv] at h
      have h2 := hs v (findByUserId_some hv)
      simp only at h
      subst h
      simpa [assignInitiateData_otpAttempts] using h2
    | none =>
      rw [hv] at h
      simp only at h
      subst h
      simp [initiatedRecordData]

theorem verifySuccessUpdate_otpAttempts (v : Record) (up : OtpVerifyResult) (now : Nat) :
    (verifySuccessUpdate v up now).otpAttempts = 0 := rfl

theorem verifyFailureUpdate_otpAttempts (v : Record) (up : OtpVerifyResult) (now : Nat) :
    (verifyFailureUpdate v up now).otpAttempts = v.otpAttempts + 1 := by
  simp only [verifyFailureUpdate]
  split <;> rfl

theorem find_pick_some {c : Prop} [Decidable c] {s : Option Record} {u ref : String} {v : Record}
    (h : (if c then findByUserRef s u ref else findByUserId s u) = some v) : s = some v := by
  split at h
  · exact findByUserRef_some h
  · exact findByUserId_some h

theorem verify_attempts_le (s : Option Record) (userId refId transactionId otp : String)
    (ctx : ReqCtx) (up : OtpVerifyResult)
    (hs : ∀ r, s = some r → r.otpAttempts ≤ 3) :
    ∀ r', (verifyHandler s userId refId transactionId otp ctx up).store = some r' →
      r'.otpAttempts ≤ 3 := by
  intro r' h
  simp only [verifyHandler] at h
  cases hf : findByUserRef s userId (pickRefId refId transactionId) with
  | none =>
    rw [hf] at h
    split_ifs at h <;> exact hs r' h
  | some v =>
    rw [hf] at h
    have hv := hs v (findByUserRef_some hf)
    simp only at h
    split_ifs at h with h1 h2 h3 h4 h5 h6 h7 h8 <;> (try exact hs r' h) <;>
      simp only [HandlerOut.store, Option.some_inj] at h
    · subst h; exact hv
    · subst h; simp [verifySuccessUpdate_otpAttempts]
    · subst h
      rw [verifyFailureUpdate_otpAttempts]
      simp only [Record.hasExceededAttempts, decide_eq_true_eq] at h7
      omega

theorem resend_attempts_le (cfg : ServiceCfg) (s : Option Record) (userId refId : String)
    (ctx : ReqCtx) (up : OtpGenResult)
    (hs : ∀ r, s = some r → r.otpAttempts ≤ 3) :
    ∀ r', (resendHandler cfg s userId refId ctx up).store = some r' →
      r'.otpAttempts ≤ 3 := by
  intro r' h
  simp only [resendHandler] at h
  cases hf : (if refId ≠ "" then findByUserRef s userId refId else findByUserId s userId) with
  | none =>
    rw [hf] at h
    split_ifs at h <;> exact hs r' h
  | some v =>
    rw [hf] at h
    simp only at h
    split_ifs at h <;> (try exact hs r' h) <;>
      simp only [HandlerOut.store, Option.some_inj] at h
    all_goals (subst h; simp)

theorem getStatus_store (s : Option Record) (userId : String) (ctx : ReqCtx) :
    (getStatusHandler s userId ctx).store = s := by
  unfold getStatusHandler
  split <;> rfl

theorem reachable_attempts_le (s : Option Record) (hr : Reachable s) :
    ∀ r, s = some r → r.otpAttempts ≤ 3 := by
  induction hr with
  | empty => intro r h; cases h
  | initiate cfg s userId aadhaarNumber consentGiven consentQ ctx up _ ih =>
    exact fun r h => initiate_attempts_le cfg s userId aadhaarNumber consentGiven consentQ ctx up ih r h
  | verify s userId refId transactionId otp ctx up _ ih =>
    exact fun r h => verify_attempts_le s userId refId transactionId otp ctx up ih r h
  | resend cfg s userId refId ctx up _ ih =>
    exact fun r h => resend_attempts_le cfg s userId refId ctx up ih r h
  | getStatus s userId ctx _ ih =>
    intro r h
    rw [getStatus_store] at h
    exact ih r h

theorem isValidOtpFormat_ne_empty {s : String} (h : isValidOtpFormat s = true) : s ≠ "" := by
  intro hc
  subst hc
  simp [isValidOtpFormat] at h

theorem verifyFailureUpdate_status_three {v : Record} (up : OtpVerifyResult) (now : Nat)
    (h : v.otpAttempts = 2) : (verifyFailureUpdate v up now).status = Status.failed := by
  simp [verifyFailureUpdate, h]

theorem verify_third_failure_forces_failed (s : Option Record)
    (userId refId transactionId otp : String) (ctx : ReqCtx) (up : OtpVerifyResult)
    (r : Record) (hu : userId ≠ "") (href : pickRefId refId transactionId ≠ "")
    (hotp : isValidOtpFormat otp = true)
    (hf : findByUserRef s userId (pickRefId refId transactionId) = some r)
    (hst : r.status = Status.otp_sent) (hex : r.isOtpExpired ctx.now = false)
    (hatt : r.otpAttempts = 2) (hup : up.success = false) :
    (verifyHandler s userId refId transactionId otp ctx up).store.map Record.otpAttempts
      = some 3 ∧
    (verifyHandler s userId refId transactionId otp ctx up).store.map Record.status
      = some Status.failed := by
  have hotpne : otp ≠ "" := isValidOtpFormat_ne_empty hotp
  have hexc : r.hasExceededAttempts = false := by
    simp [Record.hasExceededAttempts, hatt]
  simp only [verifyHandler, hf, if_neg hu, if_neg href, if_neg hotpne, hotp, hst, hex, hexc,
    hup, Bool.false_eq_true, if_false, ne_eq, not_true_eq_false, Bool.true_eq_false,
    not_false_eq_true, if_true]
  constructor
  · simp [verifyFailureUpdate_otpAttempts, hatt]
  · simp [verifyFailureUpdate_status_three up ctx.now hatt]

theorem verify_no_contact_of_exceeded (s : Option Record)
    (userId refId transactionId otp : String) (ctx : ReqCtx) (up : OtpVerifyResult)
    (r : Record) (hr : s = some r) (ha : 3 ≤ r.otpAttempts) :
    (verifyHandler s userId refId transactionId otp ctx up).contactedUpstream = false := by
  subst hr
  simp only [verifyHandler]
  cases hf : findByUserRef (some r) userId (pickRefId refId transactionId) with
  | none => split_ifs <;> rfl
  | some v =>
    have hv : v = r := by
      have h2 := findByUserRef_some hf
      simpa using h2.symm
    subst hv
    split_ifs <;> first
      | rfl
      | (simp_all [Record.hasExceededAttempts]; split_ifs <;> rfl)

/-- C1: over every reachable store, `otpAttempts` never exceeds 3; the verify
call whose failed attempt raises the counter to 3 also forces
`status = failed`; and any `VerifyOtp` call against a record whose counter
already stands at 3 (a 4th attempt) returns without the upstream adapter
ever being contacted. -/
theorem c1_otp_attempts_bounded_and_fourth_attempt_rejected :
    (∀ s, Reachable s → ∀ r, s = some r → r.otpAttempts ≤ 3) ∧
    (∀ s userId refId transactionId otp ctx up r,
      userId ≠ "" → pickRefId refId transactionId ≠ "" →
      isValidOtpFormat otp = true →
      findByUserRef s userId (pickRefId refId transactionId) = some r →
      r.status = Status.otp_sent → r.isOtpExpired ctx.now = false →
      r.otpAttempts = 2 → up.success = false →
      (verifyHandler s userId refId transactionId otp ctx up).store.map Record.otpAttempts
        = some 3 ∧
      (verifyHandler s userId refId transactionId otp ctx up).store.map Record.status
        = some Status.failed) ∧
    (∀ s userId refId transactionId otp ctx up r,
      s = some r → 3 ≤ r.otpAttempts →
      (verifyHandler s userId refId transactionId otp ctx up).contactedUpstream = false) := by
  refine ⟨reachable_attempts_le, ?_, ?_⟩
  · intro s userId refId transactionId otp ctx up r hu href hotp hf hst hex hatt hup
    exact verify_third_failure_forces_failed s userId refId transactionId otp ctx up r
      hu href hotp hf hst hex hatt hup
  · intro s userId refId transactionId otp ctx up r hr ha
    exact verify_no_contact_of_exceeded s userId refId transactionId otp ctx up r hr ha

/-- Witness for C1 at concrete inputs: the 3rd failed attempt on a record
with 2 prior failures ends at `otpAttempts = 3` and `status = failed`, and a
verify call against a record already at 3 attempts never contacts upstream. -/
theorem c1_witness :
    ((verifyHandler (some { sampleOtpSentRecord with otpAttempts := 2 }) "u1" "21637861" ""
        "000111" (sampleCtx 2000) sampleVerifyFailure).store.map Record.otpAttempts
      = some 3 ∧
     (verifyHandler (some { sampleOtpSentRecord with otpAttempts := 2 }) "u1" "21637861" ""
        "000111" (sampleCtx 2000) sampleVerifyFailure).store.map Record.status
      = some Status.failed) ∧
    (verifyHandler (some { sampleOtpSentRecord with otpAttempts := 3 }) "u1" "21637861" ""
        "000111" (sampleCtx 2000) sampleVerifyFailure).contactedUpstream = false := by
  constructor
  · exact c1_otp_attempts_bounded_and_fourth_attempt_rejected.2.1
      (some { sampleOtpSentRecord with otpAttempts := 2 }) "u1" "21637861" "" "000111"
      (sampleCtx 2000) sampleVerifyFailure { sampleOtpSentRecord with otpAttempts := 2 }
      (by decide) (by decide) (by decide) (by decide) (by decide) (by decide) (by decide)
      (by decide)
  · exact c1_otp_attempts_bounded_and_fourth_attempt_rejected.2.2
      (some { sampleOtpSentRecord with otpAttempts := 3 }) "u1" "21637861" "" "000111"
      (sampleCtx 2000) sampleVerifyFailure { sampleOtpSentRecord with otpAttempts := 3 }
      (by decide) (by decide)

theorem isValidAadhaar_ne_empty {s : String}
    (h : isValidAadhaarFormat (cleanAadhaarNumber s) = true) : s ≠ "" := by
  intro hc
  subst hc
  simp [cleanAadhaarNumber, isValidAadhaarFormat, isTwelveDigits, isSpaceOrDash] at h

theorem initiatedRecordData_fields (cfg : ServiceCfg) (userId cleanedAadhaar : String)
    (consentQ : Option ConsentInput) (ctx : ReqCtx) (genRefId : String) :
    (initiatedRecordData cfg userId cleanedAadhaar consentQ ctx genRefId).userId = userId ∧
    (initiatedRecordData cfg userId cleanedAadhaar consentQ ctx genRefId).status = Status.otp_sent ∧
    (initiatedRecordData cfg userId cleanedAadhaar consentQ ctx genRefId).refId = some genRefId ∧
    (initiatedRecordData cfg userId cleanedAadhaar consentQ ctx genRefId).otpExpiresAt
      = some (ctx.now + 10 * 60 * 1000) ∧
    (initiatedRecordData cfg userId cleanedAadhaar consentQ ctx genRefId).otpAttempts = 0 :=
  ⟨rfl, rfl, rfl, rfl, rfl⟩

theorem initiate_fresh_store (cfg : ServiceCfg) (userId aadhaarNumber : String)
    (consentGiven : Bool) (consentQ : Option ConsentInput) (ctx : ReqCtx) (gen : OtpGenResult)
    (hfeat : cfg.featureAadhaar = true) (huser : userId ≠ "")
    (hval : isValidAadhaarFormat (cleanAadhaarNumber aadhaarNumber) = true)
    (hcons : consentGiven = true) (hgen : gen.success = true) :
    (initiateHandler cfg none userId aadhaarNumber consentGiven consentQ ctx gen).store
      = some (initiatedRecordData cfg userId (cleanAadhaarNumber aadhaarNumber) consentQ ctx gen.refId) := by
  have haad : aadhaarNumber ≠ "" := isValidAadhaar_ne_empty hval
  have c1 : ¬(cfg.featureAadhaar = false) := by simp [hfeat]
  have c4 : ¬(consentGiven = false) := by simp [hcons]
  have c5 : ¬(isValidAadhaarFormat (cleanAadhaarNumber aadhaarNumber) = false) := by simp [hval]
  have c7 : ¬(gen.success = false) := by simp [hgen]
  simp only [initiateHandler, if_neg c1, if_neg huser, if_neg haad, if_neg c4, if_neg c5,
    if_neg c7, findByUserId, Option.bind]
  simp

theorem verify_success_store (s : Option Record) (userId ref otp : String)
    (ctx : ReqCtx) (ver : OtpVerifyResult) (r : Record)
    (huser : userId ≠ "") (hrefne : ref ≠ "") (hotp : isValidOtpFormat otp = true)
    (hfind : findByUserRef s userId ref = some r)
    (hst : r.status = Status.otp_sent) (hexp : r.isOtpExpired ctx.now = false)
    (hatt : r.hasExceededAttempts = false) (hver : ver.success = true) :
    (verifyHandler s userId ref "" otp ctx ver).store
      = some (verifySuccessUpdate r ver ctx.now) := by
  have hotpne : otp ≠ "" := isValidOtpFormat_ne_empty hotp
  have hpick : pickRefId ref "" = ref := by simp [pickRefId, hrefne]
  have hpickne : pickRefId ref "" ≠ "" := by rw [hpick]; exact hrefne
  have hst2 : ¬(r.status ≠ Status.otp_sent) := by simp [hst]
  simp only [verifyHandler, hpick, if_neg huser, if_neg hpickne, if_neg hotpne, hotp, hfind,
    hexp, hatt, hver, if_true, Bool.false_eq_true, if_false, if_neg hst2]
  simp [hst2, hrefne]

theorem initiate_already_verified (cfg : ServiceCfg) (s : Option Record)
    (userId aadhaarNumber : String) (consentGiven : Bool) (consentQ : Option ConsentInput)
    (ctx : ReqCtx) (gen : OtpGenResult) (r : Record)
    (hfeat : cfg.featureAadhaar = true) (huser : userId ≠ "")
    (hval : isValidAadhaarFormat (cleanAadhaarNumber aadhaarNumber) = true)
    (hcons : consentGiven = true)
    (hfind : findByUserId s userId = some r) (hst : r.status = Status.verified) :
    initiateHandler cfg s userId aadhaarNumber consentGiven consentQ ctx gen
      = ⟨s, 400, errorResponse "User is already verified"
          (some "This user has already completed Aadhaar verification") ctx.now, false⟩ := by
  have haad : aadhaarNumber ≠ "" := isValidAadhaar_ne_empty hval
  have c1 : ¬(cfg.featureAadhaar = false) := by simp [hfeat]
  have c4 : ¬(consentGiven = false) := by simp [hcons]
  have c5 : ¬(isValidAadhaarFormat (cleanAadhaarNumber aadhaarNumber) = false) := by
    simp [hval]
  have c6 : Option.map Record.status (findByUserId s userId) = some Status.verified := by
    rw [hfind]
    simp [hst]
  simp only [initiateHandler, if_neg c1, if_neg huser, if_neg haad, if_neg c4, if_neg c5, c6]
  simp

/-- C2: from an empty store, `Initiate` persists an `otp_sent` record;
`VerifyOtp` with the issued refId and a successful upstream check moves it to
`verified`; and a further `Initiate` for the same user then fails with the
already-verified error (HTTP 400, `error = "User is already verified"`),
leaving the store untouched and never contacting the upstream adapter. -/
theorem c2_initiate_verify_roundtrip_then_already_verified
    (cfg : ServiceCfg) (userId aadhaarNumber otp aadhaarNumber2 : String)
    (consentGiven consentGiven2 : Bool) (consentQ consentQ2 : Option ConsentInput)
    (ctx1 ctx2 ctx3 : ReqCtx) (gen gen2 : OtpGenResult) (ver : OtpVerifyResult)
    (hfeat : cfg.featureAadhaar = true) (huser : userId ≠ "")
    (hval : isValidAadhaarFormat (cleanAadhaarNumber aadhaarNumber) = true)
    (hcons : consentGiven = true) (hgen : gen.success = true) (hrefne : gen.refId ≠ "")
    (hotp : isValidOtpFormat otp = true) (hver : ver.success = true)
    (hexp : ctx2.now ≤ ctx1.now + 10 * 60 * 1000)
    (hval2 : isValidAadhaarFormat (cleanAadhaarNumber aadhaarNumber2) = true)
    (hcons2 : consentGiven2 = true) :
    ((initiateHandler cfg none userId aadhaarNumber consentGiven consentQ ctx1 gen).store.map
        Record.status = some Status.otp_sent) ∧
    ((verifyHandler
        (initiateHandler cfg none userId aadhaarNumber consentGiven consentQ ctx1 gen).store
        userId gen.refId "" otp ctx2 ver).store.map Record.status = some Status.verified) ∧
    (initiateHandler cfg
        (verifyHandler
          (initiateHandler cfg none userId aadhaarNumber consentGiven consentQ ctx1 gen).store
          userId gen.refId "" otp ctx2 ver).store
        userId aadhaarNumber2 consentGiven2 consentQ2 ctx3 gen2
      = ⟨(verifyHandler
            (initiateHandler cfg none userId aadhaarNumber consentGiven consentQ ctx1 gen).store
            userId gen.refId "" otp ctx2 ver).store, 400,
          errorResponse "User is already verified"
            (some "This user has already completed Aadhaar verification") ctx3.now, false⟩) := by
  have h1 := initiate_fresh_store cfg userId aadhaarNumber consentGiven consentQ ctx1 gen
    hfeat huser hval hcons hgen
  have hfind2 : findByUserRef
      (some (initiatedRecordData cfg userId (cleanAadhaarNumber aadhaarNumber) consentQ ctx1 gen.refId))
      userId gen.refId
      = some (initiatedRecordData cfg userId (cleanAadhaarNumber aadhaarNumber) consentQ ctx1 gen.refId) := by
    simp [findByUserRef, Option.bind, initiatedRecordData]
  have hexp2 : (initiatedRecordData cfg userId (cleanAadhaarNumber aadhaarNumber) consentQ ctx1 gen.refId).isOtpExpired
      ctx2.now = false := by
    simp only [Record.isOtpExpired, initiatedRecordData, decide_eq_false_iff_not]
    omega
  have hatt2 : (initiatedRecordData cfg userId (cleanAadhaarNumber aadhaarNumber) consentQ ctx1 gen.refId).hasExceededAttempts
      = false := by
    simp [Record.hasExceededAttempts, initiatedRecordData]
  have h2 : (verifyHandler
      (initiateHandler cfg none userId aadhaarNumber consentGiven consentQ ctx1 gen).store
      userId gen.refId "" otp ctx2 ver).store
      = some (verifySuccessUpdate
          (initiatedRecordData cfg userId (cleanAadhaarNumber aadhaarNumber) consentQ ctx1 gen.refId)
          ver ctx2.now) := by
    rw [h1]
    exact verify_success_store _ userId gen.refId otp ctx2 ver _ huser hrefne hotp hfind2
      rfl hexp2 hatt2 hver
  have hfind3 : findByUserId
      (some (verifySuccessUpdate
        (initiatedRecordData cfg userId (cleanAadhaarNumber aadhaarNumber) consentQ ctx1 gen.refId)
        ver ctx2.now)) userId
      = some (verifySuccessUpdate
          (initiatedRecordData cfg userId (cleanAadhaarNumber aadhaarNumber) consentQ ctx1 gen.refId)
          ver ctx2.now) := by
    simp [findByUserId, Option.bind, verifySuccessUpdate, initiatedRecordData]
  refine ⟨?_, ?_, ?_⟩
  · rw [h1]
    simp [initiatedRecordData]
  · rw [h2]
    simp [verifySuccessUpdate]
  · rw [h2]
    exact initiate_already_verified cfg _ userId aadhaarNumber2 consentGiven2 consentQ2 ctx3
      gen2 _ hfeat huser hval2 hcons2 hfind3 rfl

/-- Witness for C2 at concrete inputs (the sandbox scenario from the README:
aadhaar 655675523712, OTP 111000). -/
theorem c2_witness :
    ((initiateHandler {} none "u1" "655675523712" true none (sampleCtx 0) sampleGenSuccess).store.map
        Record.status = some Status.otp_sent) ∧
    ((verifyHandler
        (initiateHandler {} none "u1" "655675523712" true none (sampleCtx 0) sampleGenSuccess).store
        "u1" sampleGenSuccess.refId "" "111000" (sampleCtx 1000) sampleVerifySuccess).store.map
        Record.status = some Status.verified) ∧
    (initiateHandler {}
        (verifyHandler
          (initiateHandler {} none "u1" "655675523712" true none (sampleCtx 0) sampleGenSuccess).store
          "u1" sampleGenSuccess.refId "" "111000" (sampleCtx 1000) sampleVerifySuccess).store
        "u1" "655675523712" true none (sampleCtx 2000) sampleGenSuccess
      = ⟨(verifyHandler
            (initiateHandler {} none "u1" "655675523712" true none (sampleCtx 0) sampleGenSuccess).store
            "u1" sampleGenSuccess.refId "" "111000" (sampleCtx 1000) sampleVerifySuccess).store, 400,
          errorResponse "User is already verified"
            (some "This user has already completed Aadhaar verification") (sampleCtx 2000).now,
          false⟩) :=
  c2_initiate_verify_roundtrip_then_already_verified {} "u1" "655675523712" "111000"
    "655675523712" true true none none (sampleCtx 0) (sampleCtx 1000) (sampleCtx 2000)
    sampleGenSuccess sampleGenSuccess sampleVerifySuccess
    (by decide) (by decide) (by decide) (by decide) (by decide) (by decide) (by decide)
    (by decide) (by decide) (by decide) (by decide)

/-- C3: a `VerifyOtp` call on a matched `otp_sent` record whose OTP has
expired is rejected with HTTP 400 and error `"OTP has expired"` no matter
what OTP was submitted and no matter what the upstream verdict would have
been, without contacting the upstream adapter and without touching the
store. The body carries no `code` key: the route passes `OTP_EXPIRED` as a
third argument, but `errorResponse` accepts only `(error, message)` and
drops it. -/
theorem c3_expired_otp_rejected_without_code_or_upstream
    (s : Option Record) (userId refId transactionId otp : String) (ctx : ReqCtx)
    (up : OtpVerifyResult) (r : Record)
    (huser : userId ≠ "") (href : pickRefId refId transactionId ≠ "")
    (hotp : isValidOtpFormat otp = true)
    (hfind : findByUserRef s userId (pickRefId refId transactionId) = some r)
    (hst : r.status = Status.otp_sent)
    (hexp : r.isOtpExpired ctx.now = true) :
    verifyHandler s userId refId transactionId otp ctx up
      = ⟨s, 400, errorResponse "OTP has expired"
          (some "The OTP has expired. Please request a new one.") ctx.now, false⟩ ∧
    (verifyHandler s userId refId transactionId otp ctx up).response.code = none := by
  have hotpne : otp ≠ "" := isValidOtpFormat_ne_empty hotp
  have hst2 : ¬(r.status ≠ Status.otp_sent) := by simp [hst]
  have heq : verifyHandler s userId refId transactionId otp ctx up
      = ⟨s, 400, errorResponse "OTP has expired"
          (some "The OTP has expired. Please request a new one.") ctx.now, false⟩ := by
    simp only [verifyHandler, if_neg huser, if_neg href, if_neg hotpne, hotp, hfind,
      if_neg hst2, hexp]
    simp
  exact ⟨heq, by rw [heq]; rfl⟩

/-- Witness for C3: a record whose OTP expired at t=601000, verified at
t=700000 with the correct test OTP and an upstream that would have
succeeded, is still rejected; the body has no `OTP_EXPIRED` code. -/
theorem c3_witness :
    verifyHandler (some sampleOtpSentRecord) "u1" "21637861" "" "111000"
        (sampleCtx 700000) sampleVerifySuccess
      = ⟨some sampleOtpSentRecord, 400, errorResponse "OTP has expired"
          (some "The OTP has expired. Please request a new one.") (sampleCtx 700000).now,
          false⟩ ∧
    (verifyHandler (some sampleOtpSentRecord) "u1" "21637861" "" "111000"
        (sampleCtx 700000) sampleVerifySuccess).response.code = none :=
  c3_expired_otp_rejected_without_code_or_upstream (some sampleOtpSentRecord) "u1" "21637861"
    "" "111000" (sampleCtx 700000) sampleVerifySuccess sampleOtpSentRecord
    (by decide) (by decide) (by decide) (by decide) (by decide) (by decide)

theorem verify_saved_store (s : Option Record) (userId refId transactionId otp : String)
    (ctx : ReqCtx) (up : OtpVerifyResult) (r : Record)
    (huser : userId ≠ "") (href : pickRefId refId transactionId ≠ "")
    (hotp : isValidOtpFormat otp = true)
    (hfind : findByUserRef s userId (pickRefId refId transactionId) = some r)
    (hst : r.status = Status.otp_sent) (hexp : r.isOtpExpired ctx.now = false)
    (hatt : r.hasExceededAttempts = false) :
    (verifyHandler s userId refId transactionId otp ctx up).store
      = some (if up.success then verifySuccessUpdate r up ctx.now
              else verifyFailureUpdate r up ctx.now) ∧
    (verifyHandler s userId refId transactionId otp ctx up).contactedUpstream = true := by
  have hotpne : otp ≠ "" := isValidOtpFormat_ne_empty hotp
  have hst2 : ¬(r.status ≠ Status.otp_sent) := by simp [hst]
  simp only [verifyHandler, if_neg huser, if_neg href, if_neg hotpne, hotp, hfind,
    if_neg hst2, hexp, hatt]
  cases hs : up.success <;> simp [hs]

/-- C4: on every `VerifyOtp` call that passes the state, expiry and attempts
checks, the upstream adapter is consulted and the persisted `otpAttempts`
equals the update the spec describes (increment immediately, then examine
the result; success resets to 0): `0` on upstream success and `otpAttempts + 1` on
upstream failure, extensionally identical to `specAttemptsUpdate`. -/
theorem c4_attempts_update_matches_increment_then_reset
    (s : Option Record) (userId refId transactionId otp : String)
    (ctx : ReqCtx) (up : OtpVerifyResult) (r : Record)
    (huser : userId ≠ "") (href : pickRefId refId transactionId ≠ "")
    (hotp : isValidOtpFormat otp = true)
    (hfind : findByUserRef s userId (pickRefId refId transactionId) = some r)
    (hst : r.status = Status.otp_sent) (hexp : r.isOtpExpired ctx.now = false)
    (hatt : r.hasExceededAttempts = false) :
    (verifyHandler s userId refId transactionId otp ctx up).store.map Record.otpAttempts
      = some (specAttemptsUpdate r.otpAttempts up.success) ∧
    (verifyHandler s userId refId transactionId otp ctx up).contactedUpstream = true := by
  obtain ⟨hstore, hcontact⟩ := verify_saved_store s userId refId transactionId otp ctx up r
    huser href hotp hfind hst hexp hatt
  refine ⟨?_, hcontact⟩
  rw [hstore]
  cases hs : up.success <;>
    simp [hs, specAttemptsUpdate, verifySuccessUpdate_otpAttempts,
      verifyFailureUpdate_otpAttempts]

/-- Witness for C4: on a fresh record, a successful upstream check persists
`otpAttempts = 0` and a failed one persists `otpAttempts = 1`, both equal to
`specAttemptsUpdate`, with the upstream adapter contacted. -/
theorem c4_witness :
    ((verifyHandler (some sampleOtpSentRecord) "u1" "21637861" "" "111000"
        (sampleCtx 2000) sampleVerifySuccess).store.map Record.otpAttempts
      = some (specAttemptsUpdate sampleOtpSentRecord.otpAttempts true) ∧
     (verifyHandler (some sampleOtpSentRecord) "u1" "21637861" "" "111000"
        (sampleCtx 2000) sampleVerifySuccess).contactedUpstream = true) ∧
    ((verifyHandler (some sampleOtpSentRecord) "u1" "21637861" "" "000111"
        (sampleCtx 2000) sampleVerifyFailure).store.map Record.otpAttempts
      = some (specAttemptsUpdate sampleOtpSentRecord.otpAttempts false) ∧
     (verifyHandler (some sampleOtpSentRecord) "u1" "21637861" "" "000111"
        (sampleCtx 2000) sampleVerifyFailure).contactedUpstream = true) :=
  ⟨c4_attempts_update_matches_increment_then_reset (some sampleOtpSentRecord) "u1" "21637861"
      "" "111000" (sampleCtx 2000) sampleVerifySuccess sampleOtpSentRecord
      (by decide) (by decide) (by decide) (by decide) (by decide) (by decide) (by decide),
   c4_attempts_update_matches_increment_then_reset (some sampleOtpSentRecord) "u1" "21637861"
      "" "000111" (sampleCtx 2000) sampleVerifyFailure sampleOtpSentRecord
      (by decide) (by decide) (by decide) (by decide) (by decide) (by decide) (by decide)⟩

/-- C5: a `Resend` issued less than 60 seconds after `otpSentAt` is rejected
with HTTP 429; the computed positive seconds-remaining value appears only
inside the human-readable `message` text, while the body carries neither a
`code` key (the route passes `RESEND_COOLDOWN` as a third argument that
`errorResponse` drops) nor a `retryAfter` key; the upstream adapter is not
contacted and the store is unchanged. -/
theorem c5_resend_cooldown_rejected_without_code_or_retry_hint
    (cfg : ServiceCfg) (s : Option Record) (userId : String) (ctx : ReqCtx)
    (up : OtpGenResult) (v : Record) (sentAt : Nat)
    (huser : userId ≠ "") (hfind : findByUserId s userId = some v)
    (hst : v.status ≠ Status.verified) (hsent : v.otpSentAt = some sentAt)
    (hcool : (ctx.now : Int) - (sentAt : Int) < 60000) :
    resendHandler cfg s userId "" ctx up
      = ⟨s, 429, errorResponse "Please wait before requesting another OTP"
          (some ("You can request a new OTP after "
            ++ toString (cooldownRemainingSeconds ctx.now sentAt) ++ " seconds")) ctx.now,
          false⟩ ∧
    1 ≤ cooldownRemainingSeconds ctx.now sentAt ∧
    (resendHandler cfg s userId "" ctx up).response.code = none ∧
    (resendHandler cfg s userId "" ctx up).response.retryAfter = none := by
  have hdec : (decide ((ctx.now : Int) - (sentAt : Int) < 60000)) = true := by
    simpa using hcool
  have heq : resendHandler cfg s userId "" ctx up
      = ⟨s, 429, errorResponse "Please wait before requesting another OTP"
          (some ("You can request a new OTP after "
            ++ toString (cooldownRemainingSeconds ctx.now sentAt) ++ " seconds")) ctx.now,
          false⟩ := by
    simp only [resendHandler, if_neg huser]
    simp [hfind, hst, hsent, hdec]
  refine ⟨heq, ?_, by rw [heq]; rfl, by rw [heq]; rfl⟩
  simp only [cooldownRemainingSeconds]
  omega

/-- Witness for C5: resending 30 seconds after `otpSentAt = 1000` is rejected
with 30 seconds remaining in the message and no `code`/`retryAfter` keys. -/
theorem c5_witness :
    resendHandler {} (some sampleOtpSentRecord) "u1" "" (sampleCtx 31000) sampleGenSuccess
      = ⟨some sampleOtpSentRecord, 429,
          errorResponse "Please wait before requesting another OTP"
            (some ("You can request a new OTP after "
              ++ toString (cooldownRemainingSeconds 31000 1000) ++ " seconds"))
            (sampleCtx 31000).now, false⟩ ∧
    1 ≤ cooldownRemainingSeconds 31000 1000 ∧
    (resendHandler {} (some sampleOtpSentRecord) "u1" "" (sampleCtx 31000)
        sampleGenSuccess).response.code = none ∧
    (resendHandler {} (some sampleOtpSentRecord) "u1" "" (sampleCtx 31000)
        sampleGenSuccess).response.retryAfter = none :=
  c5_resend_cooldown_rejected_without_code_or_retry_hint {} (some sampleOtpSentRecord) "u1"
    (sampleCtx 31000) sampleGenSuccess sampleOtpSentRecord 1000
    (by decide) (by decide) (by decide) (by decide) (by decide)

/-- C6 counterexample: a successful `VerifyOtp` changes the persisted status
from `otp_sent` to `verified` yet leaves `auditLog` at its previous length
(1 entry), refuting "every status transition appends exactly one auditLog
entry". -/
theorem c6_counterexample :
    sampleOtpSentRecord.status = Status.otp_sent ∧
    (verifyHandler (some sampleOtpSentRecord) "u1" "21637861" "" "111000"
        (sampleCtx 2000) sampleVerifySuccess).store.map Record.status
      = some Status.verified ∧
    (verifyHandler (some sampleOtpSentRecord) "u1" "21637861" "" "111000"
        (sampleCtx 2000) sampleVerifySuccess).store.map (fun r => r.auditLog.length)
      = some sampleOtpSentRecord.auditLog.length ∧
    ¬((verifyHandler (some sampleOtpSentRecord) "u1" "21637861" "" "111000"
        (sampleCtx 2000) sampleVerifySuccess).store.map (fun r => r.auditLog.length)
      = some (sampleOtpSentRecord.auditLog.length + 1)) := by
  decide

theorem verifySuccessUpdate_auditLog (v : Record) (up : OtpVerifyResult) (now : Nat) :
    (verifySuccessUpdate v up now).auditLog = v.auditLog := rfl

theorem verifyFailureUpdate_auditLog (v : Record) (up : OtpVerifyResult) (now : Nat) :
    (verifyFailureUpdate v up now).auditLog = v.auditLog := by
  simp only [verifyFailureUpdate]
  split <;> rfl

theorem verify_auditLog_unchanged (s : Option Record)
    (userId refId transactionId otp : String) (ctx : ReqCtx) (up : OtpVerifyResult) :
    (verifyHandler s userId refId transactionId otp ctx up).store.map (fun r => r.auditLog)
      = s.map (fun r => r.auditLog) := by
  simp only [verifyHandler]
  cases hf : findByUserRef s userId (pickRefId refId transactionId) with
  | none => split_ifs <;> rfl
  | some v =>
    have hs := findByUserRef_some hf
    subst hs
    dsimp only
    split_ifs <;>
      first
        | rfl
        | simp [verifySuccessUpdate_auditLog, verifyFailureUpdate_auditLog]

theorem resend_auditLog_unchanged (cfg : ServiceCfg) (s : Option Record)
    (userId refId : String) (ctx : ReqCtx) (up : OtpGenResult) :
    (resendHandler cfg s userId refId ctx up).store.map (fun r => r.auditLog)
      = s.map (fun r => r.auditLog) := by
  simp only [resendHandler]
  cases hf : (if refId ≠ "" then findByUserRef s userId refId else findByUserId s userId) with
  | none => split_ifs <;> rfl
  | some v =>
    have hs : s = some v := find_pick_some hf
    subst hs
    dsimp only
    split_ifs <;> rfl

theorem initiate_auditLog_cases (cfg : ServiceCfg) (s : Option Record)
    (userId aadhaarNumber : String) (consentGiven : Bool) (consentQ : Option ConsentInput)
    (ctx : ReqCtx) (up : OtpGenResult) :
    (initiateHandler cfg s userId aadhaarNumber consentGiven consentQ ctx up).store = s ∨
    (initiateHandler cfg s userId aadhaarNumber consentGiven consentQ ctx up).store.map
        (fun r => r.auditLog.map AuditEntry.action) = some ["initiated"] := by
  simp only [initiateHandler]
  split_ifs <;> try exact Or.inl rfl
  all_goals
    (right
     cases hv : findByUserId s userId <;>
       simp [assignInitiateData, initiatedRecordData])

/-- C6 amended: among the three lifecycle operations only `Initiate` writes
`auditLog`, and it does not append: on success it replaces the log with the
single `initiated` entry; `VerifyOtp` and `Resend` leave `auditLog` exactly
as it was even when they change the record status. -/
theorem c6_audit_log_only_written_by_initiate :
    (∀ s userId refId transactionId otp ctx up,
      (verifyHandler s userId refId transactionId otp ctx up).store.map (fun r => r.auditLog)
        = s.map (fun r => r.auditLog)) ∧
    (∀ cfg s userId refId ctx up,
      (resendHandler cfg s userId refId ctx up).store.map (fun r => r.auditLog)
        = s.map (fun r => r.auditLog)) ∧
    (∀ cfg s userId aadhaarNumber consentGiven consentQ ctx up,
      (initiateHandler cfg s userId aadhaarNumber consentGiven consentQ ctx up).store = s ∨
      (initiateHandler cfg s userId aadhaarNumber consentGiven consentQ ctx up).store.map
          (fun r => r.auditLog.map AuditEntry.action) = some ["initiated"]) :=
  ⟨verify_auditLog_unchanged, resend_auditLog_unchanged, initiate_auditLog_cases⟩

theorem retryAux_calls_le {α : Type} (fn : Nat → Except JsError α) (maxRetries : Nat) :
    ∀ fuel attempt, (retryAux fn maxRetries fuel attempt).2 ≤ fuel := by
  intro fuel
  induction fuel with
  | zero => intro attempt; simp [retryAux]
  | succ n ih =>
    intro attempt
    simp only [retryAux]
    cases hfn : fn attempt with
    | ok a => simp
    | error e =>
      dsimp only
      split
      · simp
      · simpa using Nat.succ_le_succ (ih (attempt + 1))

theorem retry_calls_le_maxRetries {α : Type} (fn : Nat → Except JsError α) (maxRetries : Nat) :
    (retryWithBackoff fn maxRetries).2 ≤ maxRetries :=
  retryAux_calls_le fn maxRetries maxRetries 0

theorem retry_nonretryable_first {α : Type} (fn : Nat → Except JsError α) (maxRetries : Nat)
    (e : JsError) (h1 : 1 ≤ maxRetries) (hfn : fn 0 = Except.error e)
    (hnr : (categorizeError e).isRetryable = false) :
    retryWithBackoff fn maxRetries = (Except.error (categorizeError e), 1) := by
  obtain ⟨k, rfl⟩ : ∃ k, maxRetries = k + 1 := ⟨maxRetries - 1, by omega⟩
  simp only [retryWithBackoff, retryAux, hfn]
  rw [if_pos (Or.inr hnr)]

theorem categorize_client_errors_nonretryable (e : JsError) (st : Nat)
    (hst : e.responseStatus = some st)
    (hcases : st = 400 ∨ st = 401 ∨ st = 403 ∨ st = 404) :
    (categorizeError e).isRetryable = false := by
  rcases hcases with rfl | rfl | rfl | rfl <;> simp [categorizeError, hst]

/-- C7: the retry executor invokes the wrapped call at most `maxRetries`
times; a first-call failure whose categorization is non-retryable (as all
400/401/403/404 upstream responses are) is propagated immediately after
exactly one invocation; and the Cashfree provider configures `maxRetries`
3 for OTP generation, 2 for OTP verification and 3 for OTP resend. -/
theorem c7_retry_bounds_and_nonretryable_immediate :
    (∀ (α : Type) (fn : Nat → Except JsError α) (maxRetries : Nat),
      (retryWithBackoff fn maxRetries).2 ≤ maxRetries) ∧
    (∀ (α : Type) (fn : Nat → Except JsError α) (maxRetries : Nat) (e : JsError),
      1 ≤ maxRetries → fn 0 = Except.error e →
      (categorizeError e).isRetryable = false →
      retryWithBackoff fn maxRetries = (Except.error (categorizeError e), 1)) ∧
    (∀ (e : JsError) (st : Nat), e.responseStatus = some st →
      (st = 400 ∨ st = 401 ∨ st = 403 ∨ st = 404) →
      (categorizeError e).isRetryable = false) ∧
    generateAadhaarOtpMaxRetries = 3 ∧ verifyAadhaarOtpMaxRetries = 2 ∧
    resendAadhaarOtpMaxRetries = 3 :=
  ⟨fun _ fn m => retry_calls_le_maxRetries fn m,
   fun _ fn m e h1 hfn hnr => retry_nonretryable_first fn m e h1 hfn hnr,
   categorize_client_errors_nonretryable, rfl, rfl, rfl⟩

/-- Witness for C7: a wrapped call that always fails with an upstream 404 is
invoked exactly once under the verification ceiling of 2 and its categorized
error is returned, and the invocation count never exceeds the ceiling. -/
theorem c7_witness :
    retryWithBackoff (α := Nat)
        (fun _ => Except.error ⟨some 404, none, none, "session gone"⟩)
        verifyAadhaarOtpMaxRetries
      = (Except.error (categorizeError ⟨some 404, none, none, "session gone"⟩), 1) ∧
    (retryWithBackoff (α := Nat)
        (fun _ => Except.error ⟨some 404, none, none, "session gone"⟩)
        generateAadhaarOtpMaxRetries).2 ≤ generateAadhaarOtpMaxRetries :=
  ⟨c7_retry_bounds_and_nonretryable_immediate.2.1 Nat
      (fun _ => Except.error ⟨some 404, none, none, "session gone"⟩)
      verifyAadhaarOtpMaxRetries ⟨some 404, none, none, "session gone"⟩
      (by decide) rfl (by decide),
   c7_retry_bounds_and_nonretryable_immediate.1 Nat
      (fun _ => Except.error ⟨some 404, none, none, "session gone"⟩)
      generateAadhaarOtpMaxRetries⟩

/-- C8 counterexample: `"1234-5678-9012"` has length 14 and contains
non-digit characters, yet `isValidAadhaarFormat` accepts it (the function
strips whitespace and hyphens before matching `/^\d{12}$/`), refuting
"returns false for any input of any other length or containing non-digit
content". -/
theorem c8_counterexample :
    isValidAadhaarFormat "1234-5678-9012" = true ∧
    ("1234-5678-9012" : String).length ≠ 12 ∧
    ("1234-5678-9012" : String).toList.all Char.isDigit = false := by
  decide

theorem digit_not_spaceOrDash (c : Char) (h : c.isDigit = true) :
    isSpaceOrDash c = false := by
  by_contra hc
  have h2 : isSpaceOrDash c = true := by simpa using hc
  simp only [isSpaceOrDash, Char.isWhitespace, Bool.or_eq_true, decide_eq_true_eq,
    beq_iff_eq] at h2
  rcases h2 with (((rfl | rfl) | rfl) | rfl) | rfl <;> exact absurd h (by decide)

/-- C8 amended: `isValidAadhaarFormat` returns true for every string of
exactly 12 digits, and in general returns true exactly when the input with
whitespace and hyphens removed (`cleanAadhaarNumber`) consists of exactly
12 digits; every other input is rejected. -/
theorem c8_valid_aadhaar_format_characterization :
    (∀ s : String, s.length = 12 → s.toList.all Char.isDigit = true →
      isValidAadhaarFormat s = true) ∧
    (∀ s : String, isValidAadhaarFormat s = true ↔
      ((cleanAadhaarNumber s).length = 12 ∧
       (cleanAadhaarNumber s).toList.all Char.isDigit = true)) := by
  constructor
  · intro s hlen hdig
    have hfilter : s.toList.filter (fun c => !isSpaceOrDash c) = s.toList := by
      apply List.filter_eq_self.mpr
      intro c hc
      have hcd : c.isDigit = true := by
        rw [List.all_eq_true] at hdig
        exact hdig c hc
      simp [digit_not_spaceOrDash c hcd]
    have hs : (⟨s.toList.filter (fun c => !isSpaceOrDash c)⟩ : String) = s := by
      rw [hfilter]
      rfl
    simp only [isValidAadhaarFormat, hs, isTwelveDigits, hlen, hdig]
    simp
  · intro s
    simp [isValidAadhaarFormat, cleanAadhaarNumber, isTwelveDigits]

/-- Witness for C8: the 12-digit sandbox aadhaar is accepted via the first
conjunct, and the characterization applied to the hyphenated test input. -/
theorem c8_witness :
    isValidAadhaarFormat "655675523712" = true ∧
    (isValidAadhaarFormat "1234 5678 9012" = true ↔
      ((cleanAadhaarNumber "1234 5678 9012").length = 12 ∧
       (cleanAadhaarNumber "1234 5678 9012").toList.all Char.isDigit = true)) :=
  ⟨c8_valid_aadhaar_format_characterization.1 "655675523712" (by decide) (by decide),
   c8_valid_aadhaar_format_characterization.2 "1234 5678 9012"⟩

/-- C9 counterexample: two `GetStatus` calls with no intervening mutation do
not return identical output: `createResponse` stamps the body with the call
time, so the two bodies differ in their `timestamp` field (all other fields
being equal). -/
theorem c9_counterexample :
    (getStatusHandler (some sampleOtpSentRecord) "u1" (sampleCtx 0)).store
      = some sampleOtpSentRecord ∧
    (getStatusHandler (some sampleOtpSentRecord) "u1" (sampleCtx 1000)).store
      = some sampleOtpSentRecord ∧
    (getStatusHandler (some sampleOtpSentRecord) "u1" (sampleCtx 0)).response
      ≠ (getStatusHandler (some sampleOtpSentRecord) "u1" (sampleCtx 1000)).response ∧
    (getStatusHandler (some sampleOtpSentRecord) "u1" (sampleCtx 0)).response.timestamp
      ≠ (getStatusHandler (some sampleOtpSentRecord) "u1" (sampleCtx 1000)).response.timestamp := by
  decide

/-- C9 amended: `GetStatus` is a pure read — it performs no state transition
and never contacts upstream — and two calls with no intervening mutation
return responses identical in every field except the envelope `timestamp`
(hence literally identical when issued at the same instant). -/
theorem c9_get_status_pure_and_identical_up_to_timestamp
    (s : Option Record) (userId : String) (ctx1 ctx2 : ReqCtx) :
    (getStatusHandler s userId ctx1).store = s ∧
    (getStatusHandler s userId ctx1).contactedUpstream = false ∧
    (getStatusHandler s userId ctx1).response
      = { (getStatusHandler s userId ctx2).response with timestamp := ctx1.now } := by
  refine ⟨getStatus_store s userId ctx1, ?_, ?_⟩
  · simp only [getStatusHandler]
    split <;> rfl
  · simp only [getStatusHandler]
    cases hv : findByUserId s userId <;> simp [successResponse, createResponse]

/-- C10: when `otpExpiresAt` is absent, `isOtpExpired` returns false for
every current time, so a matched `otp_sent` record without an expiry value
passes the expiry check and `VerifyOtp` proceeds to contact the upstream
adapter no matter how much time has elapsed since `otpSentAt`. -/
theorem c10_missing_expiry_never_expires :
    (∀ (r : Record) (now : Nat), r.otpExpiresAt = none → r.isOtpExpired now = false) ∧
    (∀ s userId refId transactionId otp ctx up r,
      userId ≠ "" → pickRefId refId transactionId ≠ "" →
      isValidOtpFormat otp = true →
      findByUserRef s userId (pickRefId refId transactionId) = some r →
      r.status = Status.otp_sent → r.otpExpiresAt = none →
      r.hasExceededAttempts = false →
      (verifyHandler s userId refId transactionId otp ctx up).contactedUpstream = true) := by
  constructor
  · intro r now h
    simp [Record.isOtpExpired, h]
  · intro s userId refId transactionId otp ctx up r hu href hotp hfind hst hnone hatt
    have hexp : r.isOtpExpired ctx.now = false := by simp [Record.isOtpExpired, hnone]
    exact (verify_saved_store s userId refId transactionId otp ctx up r hu href hotp hfind
      hst hexp hatt).2

/-- Witness for C10: a record without `otpExpiresAt`, verified ten years of
milliseconds after issuance, still reaches the upstream adapter. -/
theorem c10_witness :
    ({ sampleOtpSentRecord with otpExpiresAt := none } : Record).isOtpExpired 315360000000
      = false ∧
    (verifyHandler (some { sampleOtpSentRecord with otpExpiresAt := none }) "u1" "21637861"
        "" "111000" (sampleCtx 315360000000) sampleVerifySuccess).contactedUpstream = true :=
  ⟨c10_missing_expiry_never_expires.1 { sampleOtpSentRecord with otpExpiresAt := none }
      315360000000 (by decide),
   c10_missing_expiry_never_expires.2 (some { sampleOtpSentRecord with otpExpiresAt := none })
      "u1" "21637861" "" "111000" (sampleCtx 315360000000) sampleVerifySuccess
      { sampleOtpSentRecord with otpExpiresAt := none }
      (by decide) (by decide) (by decide) (by decide) (by decide) (by decide) (by decide)⟩

end ExtraHand
